import Mathlib

/-!
Verification of the candidate stage-progression state machine and scoring
rules of the ai-hr backend (`src/backend/main.py`), as a shallow embedding
in Lean 4.

Conventions used throughout:
  - JSON-ish request payloads (`data : dict` in the source) are modelled as
    association lists `PyDict` over a small value type `PyVal` covering the
    shapes the state machine reads (strings, ints, bools, lists of strings,
    null).  `PyDict.get` is first-match lookup (JSON objects have unique
    keys).
  - Python truthiness of `Optional[bool]` (`if update.passed:`) is modelled
    as equality with `some true` (both `None` and `False` are falsy).
  - CPython's `list(set(xs))` produces the distinct elements of `xs` in an
    unspecified order; we canonicalize that order as `List.dedup`
    (first occurrence kept).  No claim below depends on the order.
-/

/-- A JSON-ish Python value, covering the shapes read by the stage-update
state machine. -/
inductive PyVal where
  | pyStr (s : String)
  | pyInt (n : ℤ)
  | pyBool (b : Bool)
  | pyList (l : List String)
  | pyNone
deriving DecidableEq, Repr

/-- A Python dict with string keys, as carried in a stage-update request
body. -/
abbrev PyDict := List (String × PyVal)

/-- `d.get(k)` on a Python dict: `none` models Python's `None` result. -/
def PyDict.get (d : PyDict) (k : String) : Option PyVal :=
  (d.find? (fun p => p.1 == k)).map (fun p => p.2)

/-- `data.get("red_flags", [])` / `data.get("concerns", [])`: extract a list
of strings, defaulting to the empty list.  (A non-list value here would
raise `TypeError` in the Python source when concatenated with a list; such
malformed requests are outside every claim.) -/
def PyDict.getStrList (d : PyDict) (k : String) : List String :=
  match d.get k with
  | some (PyVal.pyList l) => l
  | _ => []

/-- The persistent candidate record (`models.Candidate`), restricted to the
columns the backend reads or writes.  All stage-result columns are nullable
and start as `none`. -/
@[ext]
structure Candidate where
  id : Nat
  job_id : Nat
  name : Option String
  email : Option String
  status : String
  current_stage : String
  rejection_stage : Option String
  screening_data : Option PyDict
  screening_passed : Option Bool
  resume_text : Option PyVal
  resume_score : Option PyVal
  resume_summary : Option PyVal
  resume_red_flags : Option PyVal
  resume_passed : Option Bool
  motivation_data : Option PyDict
  primary_motivation : Option PyVal
  secondary_motivation : Option PyVal
  motivation_summary : Option PyVal
  cognitive_score : Option PyVal
  cognitive_total : Option PyVal
  cognitive_passed : Option Bool
  interview_conversation : Option PyVal
  interview_assessment : Option PyVal
  personality_profile : Option PyVal
  personality_summary : Option PyVal
  personality_score : Option PyVal
  sales_data : Option PyDict
  sales_score : Option PyVal
  sales_concerns : Option PyVal
  red_flags : Option (List String)
deriving DecidableEq, Repr

/-- `POST /v1/candidates` (`create_candidate`): the freshly created record,
with `status="in_progress"`, `current_stage="screening"` and every
stage-result column at its `None` column default. -/
def create_candidate (cid : Nat) (jobId : Nat) (name email : Option String) : Candidate :=
  { id := cid
    job_id := jobId
    name := name
    email := email
    status := "in_progress"
    current_stage := "screening"
    rejection_stage := none
    screening_data := none
    screening_passed := none
    resume_text := none
    resume_score := none
    resume_summary := none
    resume_red_flags := none
    resume_passed := none
    motivation_data := none
    primary_motivation := none
    secondary_motivation := none
    motivation_summary := none
    cognitive_score := none
    cognitive_total := none
    cognitive_passed := none
    interview_conversation := none
    interview_assessment := none
    personality_profile := none
    personality_summary := none
    personality_score := none
    sales_data := none
    sales_score := none
    sales_concerns := none
    red_flags := none }

/-- The body of `PATCH /v1/candidates/{id}/stage` (`CandidateStageUpdate`):
`passed` is optional and defaults to `None`. -/
structure CandidateStageUpdate where
  stage : String
  data : PyDict
  passed : Option Bool := none

/-- The pure transition of `update_candidate_stage` on an already-fetched
candidate: the `if stage == ... / elif ...` chain of `main.py`, one branch
per recognized stage name, with no `else` (unknown names mutate nothing).
`if update.passed:` is Python truthiness, i.e. `passed = some true`. -/
def update_candidate_stage (c : Candidate) (stage : String) (data : PyDict)
    (passed : Option Bool) : Candidate :=
  if stage = "screening" then
    let c := { c with screening_data := some data, screening_passed := passed }
    if passed = some true then
      { c with current_stage := "resume" }
    else
      { c with status := "rejected", rejection_stage := some "screening" }
  else if stage = "resume" then
    let c := { c with
      resume_text := data.get "resume_text"
      resume_score := data.get "score"
      resume_summary := data.get "summary"
      resume_red_flags := data.get "red_flags"
      resume_passed := passed }
    if passed = some true then
      { c with current_stage := "motivation" }
    else
      { c with status := "rejected", rejection_stage := some "resume" }
  else if stage = "motivation" then
    { c with
      motivation_data := some data
      primary_motivation := data.get "primary_motivation"
      secondary_motivation := data.get "secondary_motivation"
      motivation_summary := data.get "analysis_summary"
      current_stage := "cognitive" }
  else if stage = "cognitive" then
    let c := { c with
      cognitive_score := data.get "score"
      cognitive_total := data.get "total"
      cognitive_passed := passed }
    if passed = some true then
      { c with current_stage := "interview" }
    else
      { c with status := "rejected", rejection_stage := some "cognitive" }
  else if stage = "interview" then
    { c with
      interview_conversation := data.get "conversation"
      interview_assessment := data.get "assessment"
      current_stage := "personality" }
  else if stage = "personality" then
    let existing_flags := c.red_flags.getD []
    let new_flags := data.getStrList "red_flags"
    let c := { c with
      personality_profile := data.get "profile"
      personality_summary := data.get "summary"
      personality_score := data.get "sales_fit_score"
      red_flags := some ((existing_flags ++ new_flags).dedup) }
    if passed = some true then
      { c with current_stage := "sales" }
    else
      { c with status := "rejected", rejection_stage := some "personality" }
  else if stage = "sales" then
    let existing_flags := c.red_flags.getD []
    let concerns := data.getStrList "concerns"
    let c := { c with
      sales_data := some data
      sales_score := data.get "overall_sales_score"
      sales_concerns := data.get "concerns"
      red_flags := some ((existing_flags ++ concerns).dedup) }
    if passed = some true then
      { c with current_stage := "ready_for_final" }
    else
      { c with status := "rejected", rejection_stage := some "sales" }
  else if stage = "final_interview" then
    { c with current_stage := "offer_pending" }
  else if stage = "offer" then
    { c with status := "completed", current_stage := "hired" }
  else
    c

/-- An HTTP error raised via `HTTPException`. -/
structure HTTPError where
  status_code : Nat
  detail : String
deriving DecidableEq, Repr

/-- The candidate table, keyed by id. -/
abbrev CandidateStore := List (Nat × Candidate)

/-- `select(Candidate).where(Candidate.id == candidate_id)` followed by
`scalar_one_or_none()`. -/
def findCandidate (store : CandidateStore) (cid : Nat) : Option Candidate :=
  (store.find? (fun p => p.1 == cid)).map (fun p => p.2)

/-- The full `PATCH /v1/candidates/{id}/stage` endpoint: 404 for an unknown
candidate id, otherwise the pure transition applied to the fetched row. -/
def update_candidate_stage_endpoint (store : CandidateStore) (cid : Nat)
    (u : CandidateStageUpdate) : Except HTTPError Candidate :=
  match findCandidate store cid with
  | none => Except.error { status_code := 404, detail := "Candidate not found" }
  | some c => Except.ok (update_candidate_stage c u.stage u.data u.passed)

/-! ## Stage 2: initial screening (`stage2_screening`) -/

/-- A screening answer value (`Union[str, bool, int]` in the source). -/
inductive AnswerVal where
  | s (v : String)
  | b (v : Bool)
  | i (v : ℤ)
deriving DecidableEq, Repr

/-- One entry of `ScreeningRequest.answers`. -/
structure ScreeningAnswer where
  question_id : String
  answer : AnswerVal
deriving DecidableEq, Repr

/-- The body of `ScreeningResponse`. -/
structure ScreeningResponse where
  passed : Bool
  details : String
deriving DecidableEq, Repr

/-- The numeric view Python's `==` takes of `bool`/`int` operands
(`True == 1`). -/
def AnswerVal.toZ : AnswerVal → ℤ
  | AnswerVal.s _ => 0
  | AnswerVal.b v => if v then 1 else 0
  | AnswerVal.i v => v

/-- Python `==` on screening answer values: strings compare by content and
never equal numbers; `bool` and `int` compare numerically. -/
def pyEq : AnswerVal → AnswerVal → Bool
  | AnswerVal.s a, AnswerVal.s b => a == b
  | AnswerVal.s _, _ => false
  | _, AnswerVal.s _ => false
  | x, y => x.toZ == y.toZ

/-- Python `==` between a `dict.get` result (possibly `None`) and a plain
value: `None` equals no expected criterion value. -/
def pyEqOpt : Option AnswerVal → AnswerVal → Bool
  | none, _ => false
  | some x, y => pyEq x y

/-- Python `isinstance(x, int)` on a `dict.get` result: `True` for `int`
and also for `bool` (a subclass of `int`); `False` for `str` and `None`. -/
def pyIsIntInst : Option AnswerVal → Bool
  | some (AnswerVal.i _) => true
  | some (AnswerVal.b _) => true
  | _ => false

/-- The integer an `isinstance(·, int)`-passing value compares as (only
consulted after `pyIsIntInst` holds, mirroring Python's short-circuit). -/
def pyToInt : Option AnswerVal → ℤ
  | some (AnswerVal.i v) => v
  | some (AnswerVal.b v) => if v then 1 else 0
  | _ => 0

/-- How an f-string renders a `dict.get` result (`str(x)`). -/
def pyShowOpt : Option AnswerVal → String
  | none => "None"
  | some (AnswerVal.s v) => v
  | some (AnswerVal.b true) => "True"
  | some (AnswerVal.b false) => "False"
  | some (AnswerVal.i v) => toString v

/-- `SCREENING_QUESTIONS_CRITERIA["cold_calls"]["expected"]`. -/
def screening_expected_cold_calls : AnswerVal := AnswerVal.b true

/-- `SCREENING_QUESTIONS_CRITERIA["work_format"]["expected"]`. -/
def screening_expected_work_format : AnswerVal := AnswerVal.s "office"

/-- `SCREENING_QUESTIONS_CRITERIA["salary_expectation"]["max_allowed"]`. -/
def screening_max_allowed : ℤ := 60000

/-- `{ans.question_id: ans.answer for ans in request.answers}` followed by
`.get(k)`: a dict comprehension keeps the LAST occurrence of a duplicated
key. -/
def candidate_answers (answers : List ScreeningAnswer) (k : String) : Option AnswerVal :=
  answers.foldl (fun acc a => if a.question_id = k then some a.answer else acc) none

/-- `stage2_screening`: the three criterion checks in source order, each
short-circuiting with its specific reason string. -/
def stage2_screening (answers : List ScreeningAnswer) : ScreeningResponse :=
  let ca := candidate_answers answers
  if ¬ (pyEqOpt (ca "cold_calls") screening_expected_cold_calls = true) then
    { passed := false, details := "Candidate is not willing to make cold calls." }
  else if ¬ (pyEqOpt (ca "work_format") screening_expected_work_format = true) then
    { passed := false
      details := "Candidate prefers '" ++ pyShowOpt (ca "work_format")
        ++ "' format, but '" ++ "office" ++ "' is required." }
  else
    let salary_exp := ca "salary_expectation"
    if ¬ (pyIsIntInst salary_exp = true) ∨ pyToInt salary_exp > screening_max_allowed then
      { passed := false
        details := "Candidate's salary expectation (" ++ pyShowOpt salary_exp
          ++ ") exceeds the maximum allowed (" ++ toString screening_max_allowed ++ ")." }
    else
      { passed := true, details := "Candidate passed initial screening." }

/-! ## Stage 5: cognitive test (`submit_cognitive_test`) -/

/-- One entry of `COGNITIVE_QUIZ_QUESTIONS`. -/
structure CognitiveQuizQuestion where
  id : String
  question : String
  options : List String
  correct_answer : String
deriving DecidableEq, Repr

/-- The fixed three-question quiz (`COGNITIVE_QUIZ_QUESTIONS`). -/
def COGNITIVE_QUIZ_QUESTIONS : List CognitiveQuizQuestion :=
  [ { id := "logic_1"
      question := "Если все Зипы — это Зупы, а некоторые Зупы — это Зопы, то некоторые Зипы обязательно являются Зопами."
      options := ["Правда", "Ложь"]
      correct_answer := "Ложь" }
  , { id := "math_1"
      question := "Ручка и блокнот вместе стоят 110 рублей. Блокнот стоит на 100 рублей дороже ручки. Сколько стоит ручка?"
      options := ["5 рублей", "10 рублей", "15 рублей", "Невозможно определить"]
      correct_answer := "5 рублей" }
  , { id := "attention_1"
      question := "Найдите и посчитайте, сколько раз в следующем предложении встречается буква 'о': 'Огромный опоссум озадаченно оглядывался по сторонам, поедая сочное оранжевое яблоко.'"
      options := ["9", "10", "11", "12"]
      correct_answer := "11" } ]

/-- One submitted answer (`CandidateAnswer`). -/
structure CandidateAnswer where
  question_id : String
  answer : String
deriving DecidableEq, Repr

/-- `CognitiveTestSubmission`. -/
structure CognitiveTestSubmission where
  answers : List CandidateAnswer
deriving DecidableEq, Repr

/-- `CognitiveTestResult`. -/
structure CognitiveTestResult where
  score : Nat
  total : Nat
  passed : Bool
deriving DecidableEq, Repr

/-- `{q["id"]: q["correct_answer"] for q in COGNITIVE_QUIZ_QUESTIONS}` with
`.get`. -/
def correct_answers_map (k : String) : Option String :=
  ((COGNITIVE_QUIZ_QUESTIONS.map (fun q => (q.id, q.correct_answer))).find?
    (fun p => p.1 == k)).map (fun p => p.2)

/-- `submit_cognitive_test`: count matching submitted answers, pass when at
most one mistake relative to the question count. -/
def submit_cognitive_test (submission : CognitiveTestSubmission) : CognitiveTestResult :=
  let score := submission.answers.foldl
    (fun sc a => if correct_answers_map a.question_id == some a.answer then sc + 1 else sc) 0
  let total := COGNITIVE_QUIZ_QUESTIONS.length
  { score := score, total := total, passed := decide (score ≥ total - 1) }

/-! ## Stage 7: personality profile (`stage7_personality_test`) -/

/-- One option of a personality question. -/
structure PersonalityOption where
  value : ℤ
  text : String
deriving DecidableEq, Repr

/-- One entry of `PERSONALITY_QUESTIONS`. -/
structure PersonalityQuestion where
  id : String
  text : String
  scale : String
  options : List PersonalityOption
deriving DecidableEq, Repr

/-- The fixed questionnaire (`PERSONALITY_QUESTIONS`): two questions per
scale, seven scales. -/
def PERSONALITY_QUESTIONS : List PersonalityQuestion :=
  [ { id := "pers_1", text := "Когда клиент говорит 'нет', я обычно:", scale := "persistence"
      options :=
        [ { value := 1, text := "Принимаю отказ и перехожу к следующему" }
        , { value := 3, text := "Пробую один раз переубедить" }
        , { value := 5, text := "Ищу новый подход и продолжаю работу" } ] }
  , { id := "pers_2", text := "Если цель месяца кажется недостижимой, я:", scale := "persistence"
      options :=
        [ { value := 1, text := "Смиряюсь и работаю в комфортном режиме" }
        , { value := 3, text := "Стараюсь, но не перерабатываю" }
        , { value := 5, text := "Удваиваю усилия до последнего дня" } ] }
  , { id := "stress_1", text := "После серии отказов подряд я:", scale := "stress_resistance"
      options :=
        [ { value := 1, text := "Чувствую упадок сил и мотивации" }
        , { value := 3, text := "Делаю паузу, чтобы восстановиться" }
        , { value := 5, text := "Продолжаю работать, это часть процесса" } ] }
  , { id := "stress_2", text := "Когда руководитель критикует мою работу, я:", scale := "stress_resistance"
      options :=
        [ { value := 1, text := "Расстраиваюсь и долго переживаю" }
        , { value := 3, text := "Принимаю к сведению, но это неприятно" }
        , { value := 5, text := "Благодарю за обратную связь и исправляю" } ] }
  , { id := "energy_1", text := "Мой типичный рабочий темп:", scale := "energy"
      options :=
        [ { value := 1, text := "Размеренный, без спешки" }
        , { value := 3, text := "Средний, с пиками активности" }
        , { value := 5, text := "Высокий, я люблю динамику" } ] }
  , { id := "energy_2", text := "После 8-часового рабочего дня я:", scale := "energy"
      options :=
        [ { value := 1, text := "Полностью вымотан" }
        , { value := 3, text := "Устал, но это нормально" }
        , { value := 5, text := "Ещё есть силы на дополнительные дела" } ] }
  , { id := "social_1", text := "Общение с незнакомыми людьми для меня:", scale := "sociability"
      options :=
        [ { value := 1, text := "Стресс, я избегаю этого" }
        , { value := 3, text := "Нейтрально, когда нужно - общаюсь" }
        , { value := 5, text := "Удовольствие, легко нахожу общий язык" } ] }
  , { id := "social_2", text := "На корпоративе или нетворкинге я:", scale := "sociability"
      options :=
        [ { value := 1, text := "Стою в стороне или ухожу рано" }
        , { value := 3, text := "Общаюсь с знакомыми коллегами" }
        , { value := 5, text := "Знакомлюсь с максимумом людей" } ] }
  , { id := "honest_1", text := "Если продукт не подходит клиенту, я:", scale := "honesty"
      options :=
        [ { value := 5, text := "Честно скажу и предложу альтернативу" }
        , { value := 3, text := "Постараюсь найти хоть какую-то пользу" }
        , { value := 1, text := "Всё равно попробую продать" } ] }
  , { id := "honest_2", text := "При заполнении отчётов я:", scale := "honesty"
      options :=
        [ { value := 5, text := "Всегда указываю реальные цифры" }
        , { value := 3, text := "Иногда округляю в свою пользу" }
        , { value := 1, text := "Подгоняю под нужный результат" } ] }
  , { id := "team_1", text := "Когда коллега просит помочь с его клиентом, я:", scale := "teamwork"
      options :=
        [ { value := 1, text := "Отказываюсь - у меня свои задачи" }
        , { value := 3, text := "Помогаю, если есть время" }
        , { value := 5, text := "Всегда помогаю, успех команды важнее" } ] }
  , { id := "team_2", text := "Лучшие результаты я показываю:", scale := "teamwork"
      options :=
        [ { value := 1, text := "Работая полностью самостоятельно" }
        , { value := 3, text := "В небольшой команде" }
        , { value := 5, text := "В тесной командной работе" } ] }
  , { id := "routine_1", text := "Делать 50+ звонков в день для меня:", scale := "routine_tolerance"
      options :=
        [ { value := 1, text := "Невыносимо, это убивает мотивацию" }
        , { value := 3, text := "Терпимо, если есть результат" }
        , { value := 5, text := "Нормально, это часть работы" } ] }
  , { id := "routine_2", text := "Заполнение CRM после каждого контакта:", scale := "routine_tolerance"
      options :=
        [ { value := 1, text := "Бесполезная трата времени" }
        , { value := 3, text := "Необходимость, делаю без энтузиазма" }
        , { value := 5, text := "Важно для системности работы" } ] } ]

/-- `PERSONALITY_SCALES`. -/
def PERSONALITY_SCALES : List String :=
  ["persistence", "stress_resistance", "energy", "sociability", "honesty",
   "teamwork", "routine_tolerance"]

/-- One submitted personality answer (`PersonalityAnswer`). -/
structure PersonalityAnswer where
  question_id : String
  value : ℤ
deriving DecidableEq, Repr

/-- `{q["id"]: q["scale"] for q in PERSONALITY_QUESTIONS}` with `.get`. -/
def personality_question_map (k : String) : Option String :=
  ((PERSONALITY_QUESTIONS.map (fun q => (q.id, q.scale))).find?
    (fun p => p.1 == k)).map (fun p => p.2)

/-- The per-scale score list built by the answer loop of
`stage7_personality_test`: for each answer whose question id maps to this
scale, its value is appended in submission order.  (All mapped scale names
are non-empty, so Python's `if scale:` truthiness test is simply
`≠ None`.) -/
def scale_scores (answers : List PersonalityAnswer) (scale : String) : List ℤ :=
  answers.foldl
    (fun acc a =>
      match personality_question_map a.question_id with
      | some sc => if sc = scale then acc ++ [a.value] else acc
      | none => acc)
    []

/-- Python `int(q)` on a float/rational: truncation toward zero. -/
def pyTrunc (q : ℚ) : ℤ := if 0 ≤ q then ⌊q⌋ else -⌊-q⌋

/-- The per-scale normalization of `stage7_personality_test`:
`int((avg - 1) / 4 * 100)` over the collected values, default `50` when the
scale collected none.  (Over the inputs quantified by the theorems below —
at most two values per scale, or the explicit counterexample input — the
exact rational arithmetic used here agrees with Python's double-precision
evaluation.) -/
def stage7_profile (answers : List PersonalityAnswer) (scale : String) : ℤ :=
  let scores := scale_scores answers scale
  if scores ≠ [] then
    pyTrunc ((((scores.sum : ℚ) / (scores.length : ℚ)) - 1) / 4 * 100)
  else
    50

/-! ## Helper lemmas -/

/-- The score accumulator of `submit_cognitive_test` counts the answers
satisfying the match predicate. -/
theorem foldl_score_eq_countP {α : Type} (p : α → Bool) (l : List α) (n : ℕ) :
    l.foldl (fun sc a => if p a then sc + 1 else sc) n = n + l.countP p := by
  induction l generalizing n with
  | nil => simp
  | cons a t ih =>
    by_cases h : p a = true
    · simp only [List.foldl_cons, List.countP_cons, h, if_pos, ih]
      omega
    · simp [List.foldl_cons, List.countP_cons, h, ih]

/-- The per-scale accumulation loop of `stage7_personality_test` collects
exactly the values of the answers mapped to that scale, in order. -/
theorem scale_scores_eq_filter (answers : List PersonalityAnswer) (scale : String) :
    scale_scores answers scale =
      (answers.filter
        (fun a => personality_question_map a.question_id == some scale)).map
        (fun a => a.value) := by
  suffices h : ∀ (l : List PersonalityAnswer) (acc : List ℤ),
      l.foldl
        (fun acc a =>
          match personality_question_map a.question_id with
          | some sc => if sc = scale then acc ++ [a.value] else acc
          | none => acc)
        acc =
      acc ++ (l.filter (fun a => personality_question_map a.question_id == some scale)).map
        (fun a => a.value) by
    simpa [scale_scores] using h answers []
  intro l
  induction l with
  | nil => simp
  | cons a t ih =>
    intro acc
    rcases hm : personality_question_map a.question_id with _ | sc <;>
      simp only [List.foldl_cons, List.filter_cons, hm]
    · simp [ih]
    · by_cases hsc : sc = scale
      · subst hsc
        simp [ih]
      · have : (some sc == some scale) = false := by
          simp [hsc]
        simp [hsc, this, ih]

/-- A list of integers all at least `1` sums to at least its length. -/
theorem length_le_sum_of_one_le (l : List ℤ) (h : ∀ v ∈ l, 1 ≤ v) :
    (l.length : ℤ) ≤ l.sum := by
  induction l with
  | nil => simp
  | cons a t ih =>
    have ha : 1 ≤ a := h a (List.mem_cons_self a t)
    have ht : (t.length : ℤ) ≤ t.sum := ih fun v hv => h v (List.mem_cons_of_mem a hv)
    simp only [List.length_cons, List.sum_cons]
    push_cast
    omega

/-- C1: creating a candidate and passing all seven funnel stages in order
(screening, resume, motivation, cognitive, interview, personality, sales)
ends with `current_stage = "ready_for_final"`, `status = "in_progress"` and
no `rejection_stage` set. -/
theorem stage_round_trip (cid jid : Nat) (nm em : Option String)
    (d1 d2 d3 d4 d5 d6 d7 : PyDict) (p3 p5 : Option Bool) :
    let c := update_candidate_stage (update_candidate_stage (update_candidate_stage
      (update_candidate_stage (update_candidate_stage (update_candidate_stage
        (update_candidate_stage (create_candidate cid jid nm em)
          "screening" d1 (some true))
        "resume" d2 (some true))
        "motivation" d3 p3)
        "cognitive" d4 (some true))
        "interview" d5 p5)
        "personality" d6 (some true))
      "sales" d7 (some true)
    c.current_stage = "ready_for_final" ∧ c.status = "in_progress" ∧
      c.rejection_stage = none := by
  simp [update_candidate_stage, create_candidate]

/-- C2: for every candidate and every gating stage, an update with
`passed = false` sets `status = "rejected"` and `rejection_stage` to exactly
that stage name, and leaves `current_stage` unchanged (no advancement past
the rejecting stage). -/
theorem gating_stage_reject (c : Candidate) (s : String) (d : PyDict)
    (h : s ∈ ["screening", "resume", "cognitive", "personality", "sales"]) :
    (update_candidate_stage c s d (some false)).status = "rejected" ∧
    (update_candidate_stage c s d (some false)).rejection_stage = some s ∧
    (update_candidate_stage c s d (some false)).current_stage = c.current_stage := by
  fin_cases h <;> simp [update_candidate_stage]

/-- Witness for `gating_stage_reject` at stage `"cognitive"` on a freshly
created candidate. -/
theorem gating_stage_reject_witness :
    "cognitive" ∈ ["screening", "resume", "cognitive", "personality", "sales"] ∧
    ((update_candidate_stage (create_candidate 1 1 none none) "cognitive" []
        (some false)).status = "rejected" ∧
      (update_candidate_stage (create_candidate 1 1 none none) "cognitive" []
        (some false)).rejection_stage = some "cognitive" ∧
      (update_candidate_stage (create_candidate 1 1 none none) "cognitive" []
        (some false)).current_stage = (create_candidate 1 1 none none).current_stage) :=
  ⟨by decide, gating_stage_reject (create_candidate 1 1 none none) "cognitive" [] (by decide)⟩

/-- Counterexample to C3: a candidate already in `status = "rejected"`
(after failing screening) still has its fields mutated by a subsequent
stage update — `current_stage` moves from `"screening"` to `"resume"` and
`screening_passed` flips from `some false` to `some true`.  No terminal
guard exists. -/
theorem terminal_update_still_mutates :
    (update_candidate_stage (create_candidate 1 1 none none) "screening" []
      (some false)).status = "rejected" ∧
    (update_candidate_stage (create_candidate 1 1 none none) "screening" []
      (some false)).current_stage = "screening" ∧
    (update_candidate_stage (create_candidate 1 1 none none) "screening" []
      (some false)).screening_passed = some false ∧
    (update_candidate_stage
      (update_candidate_stage (create_candidate 1 1 none none) "screening" []
        (some false)) "screening" [] (some true)).current_stage = "resume" ∧
    (update_candidate_stage
      (update_candidate_stage (create_candidate 1 1 none none) "screening" []
        (some false)) "screening" [] (some true)).screening_passed = some true := by
  decide

/-- C3 (amended): terminal statuses are not enforced — a stage update on a
candidate whose status is already `"rejected"` or `"completed"` is applied
rather than rejected or ignored: a screening update with `passed = true`
still stores the submitted data, sets `screening_passed = true` and
advances `current_stage` to `"resume"` (only `status` itself is left
untouched by the pass branch). -/
theorem terminal_status_not_enforced (c : Candidate) (d : PyDict)
    (_h : c.status = "rejected" ∨ c.status = "completed") :
    (update_candidate_stage c "screening" d (some true)).current_stage = "resume" ∧
    (update_candidate_stage c "screening" d (some true)).screening_passed = some true ∧
    (update_candidate_stage c "screening" d (some true)).screening_data = some d ∧
    (update_candidate_stage c "screening" d (some true)).status = c.status := by
  simp [update_candidate_stage]

/-- Witness for `terminal_status_not_enforced` on a candidate rejected at
screening. -/
theorem terminal_status_not_enforced_witness :
    ((update_candidate_stage (create_candidate 2 1 none none) "screening" []
        (some false)).status = "rejected" ∨
      (update_candidate_stage (create_candidate 2 1 none none) "screening" []
        (some false)).status = "completed") ∧
    ((update_candidate_stage
        (update_candidate_stage (create_candidate 2 1 none none) "screening" []
          (some false)) "screening" [("answers", PyVal.pyNone)]
        (some true)).current_stage = "resume" ∧
      (update_candidate_stage
        (update_candidate_stage (create_candidate 2 1 none none) "screening" []
          (some false)) "screening" [("answers", PyVal.pyNone)]
        (some true)).screening_passed = some true ∧
      (update_candidate_stage
        (update_candidate_stage (create_candidate 2 1 none none) "screening" []
          (some false)) "screening" [("answers", PyVal.pyNone)]
        (some true)).screening_data = some [("answers", PyVal.pyNone)] ∧
      (update_candidate_stage
        (update_candidate_stage (create_candidate 2 1 none none) "screening" []
          (some false)) "screening" [("answers", PyVal.pyNone)]
        (some true)).status =
        (update_candidate_stage (create_candidate 2 1 none none) "screening" []
          (some false)).status) :=
  ⟨Or.inl (by decide),
    terminal_status_not_enforced
      (update_candidate_stage (create_candidate 2 1 none none) "screening" [] (some false))
      [("answers", PyVal.pyNone)] (Or.inl (by decide))⟩

/-- C4: `red_flags` behaves as a monotonically accumulated set across
personality and sales updates — every flag present before such an update is
still present afterwards, the stored flag list is always duplicate-free,
and contributing the same flag string from the personality stage and then
again (as a concern) from the sales stage leaves exactly one occurrence. -/
theorem red_flags_set_semantics :
    (∀ (c : Candidate) (s : String) (d : PyDict) (p : Option Bool),
      s ∈ ["personality", "sales"] →
      (∀ f, f ∈ c.red_flags.getD [] →
        f ∈ (update_candidate_stage c s d p).red_flags.getD []) ∧
      ((update_candidate_stage c s d p).red_flags.getD []).Nodup) ∧
    (∀ (c : Candidate) (x : String) (dp ds : PyDict) (pp ps : Option Bool),
      dp.get "red_flags" = some (PyVal.pyList [x]) →
      ds.get "concerns" = some (PyVal.pyList [x]) →
      ((update_candidate_stage (update_candidate_stage c "personality" dp pp)
          "sales" ds ps).red_flags.getD []).count x = 1) := by
  constructor
  · intro c s d p hs
    fin_cases hs
    · constructor
      · intro f hf
        by_cases hp : p = some true <;>
          simp [update_candidate_stage, hp, List.mem_dedup, List.mem_append, hf]
      · by_cases hp : p = some true <;>
          simp [update_candidate_stage, hp, List.nodup_dedup]
    · constructor
      · intro f hf
        by_cases hp : p = some true <;>
          simp [update_candidate_stage, hp, List.mem_dedup, List.mem_append, hf]
      · by_cases hp : p = some true <;>
          simp [update_candidate_stage, hp, List.nodup_dedup]
  · intro c x dp ds pp ps hdp hds
    have hflags : ∀ (c' : Candidate),
        c'.red_flags = some (((c.red_flags.getD []) ++ [x]).dedup) →
        ((update_candidate_stage c' "sales" ds ps).red_flags.getD []).count x = 1 := by
      intro c' hc'
      have hmem : x ∈ ((update_candidate_stage c' "sales" ds ps).red_flags.getD []) := by
        by_cases hp : ps = some true <;>
          simp [update_candidate_stage, hp, PyDict.getStrList, hds, hc',
            List.mem_dedup, List.mem_append]
      have hnd : ((update_candidate_stage c' "sales" ds ps).red_flags.getD []).Nodup := by
        by_cases hp : ps = some true <;>
          simp [update_candidate_stage, hp, List.nodup_dedup]
      exact List.count_eq_one_of_mem hnd hmem
    by_cases hp : pp = some true <;>
      · apply hflags
        simp [update_candidate_stage, hp, PyDict.getStrList, hdp]

/-- Witness for `red_flags_set_semantics`: a candidate holding flag `"y"`
keeps it through a personality update contributing `"x"`, the result is
duplicate-free, and contributing `"x"` again via a sales update leaves its
count at `1`. -/
theorem red_flags_set_semantics_witness :
    ("personality" ∈ ["personality", "sales"] ∧
      "y" ∈ ({ create_candidate 1 1 none none with
        red_flags := some ["y"] } : Candidate).red_flags.getD [] ∧
      "y" ∈ (update_candidate_stage
        { create_candidate 1 1 none none with red_flags := some ["y"] }
        "personality" [("red_flags", PyVal.pyList ["x"])] (some true)).red_flags.getD [] ∧
      ((update_candidate_stage
        { create_candidate 1 1 none none with red_flags := some ["y"] }
        "personality" [("red_flags", PyVal.pyList ["x"])] (some true)).red_flags.getD []).Nodup) ∧
    (PyDict.get [("red_flags", PyVal.pyList ["x"])] "red_flags" = some (PyVal.pyList ["x"]) ∧
      PyDict.get [("concerns", PyVal.pyList ["x"])] "concerns" = some (PyVal.pyList ["x"]) ∧
      ((update_candidate_stage
          (update_candidate_stage
            { create_candidate 1 1 none none with red_flags := some ["y"] }
            "personality" [("red_flags", PyVal.pyList ["x"])] none)
          "sales" [("concerns", PyVal.pyList ["x"])] none).red_flags.getD []).count "x" = 1) :=
  ⟨⟨by decide, by decide,
    (red_flags_set_semantics.1
      { create_candidate 1 1 none none with red_flags := some ["y"] }
      "personality" [("red_flags", PyVal.pyList ["x"])] (some true) (by decide)).1 "y" (by decide),
    (red_flags_set_semantics.1
      { create_candidate 1 1 none none with red_flags := some ["y"] }
      "personality" [("red_flags", PyVal.pyList ["x"])] (some true) (by decide)).2⟩,
   ⟨rfl, rfl,
    red_flags_set_semantics.2
      { create_candidate 1 1 none none with red_flags := some ["y"] }
      "x" [("red_flags", PyVal.pyList ["x"])] [("concerns", PyVal.pyList ["x"])]
      none none rfl rfl⟩⟩

/-- C9: a stage update whose stage name is outside the fixed set is a
silent no-op — the candidate record is returned completely unchanged and no
error is raised — while an update addressed to an unknown candidate id
fails with a 404 "Candidate not found". -/
theorem unknown_stage_noop_unknown_candidate_404 :
    (∀ (c : Candidate) (s : String) (d : PyDict) (p : Option Bool),
      s ∉ ["screening", "resume", "motivation", "cognitive", "interview",
        "personality", "sales", "final_interview", "offer"] →
      update_candidate_stage c s d p = c) ∧
    (∀ (store : CandidateStore) (cid : Nat) (u : CandidateStageUpdate),
      findCandidate store cid = none →
      update_candidate_stage_endpoint store cid u =
        Except.error { status_code := 404, detail := "Candidate not found" }) := by
  constructor
  · intro c s d p hs
    simp only [List.mem_cons, List.mem_singleton, not_or] at hs
    obtain ⟨h1, h2, h3, h4, h5, h6, h7, h8, h9, -⟩ := hs
    simp [update_candidate_stage, h1, h2, h3, h4, h5, h6, h7, h8, h9]
  · intro store cid u hfind
    simp [update_candidate_stage_endpoint, hfind]

/-- Witness for `unknown_stage_noop_unknown_candidate_404` at the
unrecognized stage name `"archived"` and an empty candidate table. -/
theorem unknown_stage_noop_unknown_candidate_404_witness :
    ("archived" ∉ ["screening", "resume", "motivation", "cognitive", "interview",
        "personality", "sales", "final_interview", "offer"] ∧
      update_candidate_stage (create_candidate 1 1 none none) "archived" [] (some true) =
        create_candidate 1 1 none none) ∧
    (findCandidate [] 7 = none ∧
      update_candidate_stage_endpoint [] 7 { stage := "screening", data := [] } =
        Except.error { status_code := 404, detail := "Candidate not found" }) :=
  ⟨⟨by decide,
    unknown_stage_noop_unknown_candidate_404.1 (create_candidate 1 1 none none)
      "archived" [] (some true) (by decide)⟩,
   ⟨rfl,
    unknown_stage_noop_unknown_candidate_404.2 [] 7
      { stage := "screening", data := [] } rfl⟩⟩

/-- C10: on every gating stage, a stage update whose optional `passed`
field is omitted (`None`) rejects exactly like `passed = false` — status
becomes `"rejected"` with `rejection_stage` set to the stage — and the two
updates produce identical records except for the stored per-stage passed
flag, which is the null value (`none`) rather than `false` where that
stage stores one. -/
theorem omitted_passed_rejects (c : Candidate) (s : String) (d : PyDict)
    (h : s ∈ ["screening", "resume", "cognitive", "personality", "sales"]) :
    (update_candidate_stage c s d none).status = "rejected" ∧
    (update_candidate_stage c s d none).rejection_stage = some s ∧
    update_candidate_stage c s d (some false) =
      { update_candidate_stage c s d none with
          screening_passed := (update_candidate_stage c s d (some false)).screening_passed
          resume_passed := (update_candidate_stage c s d (some false)).resume_passed
          cognitive_passed := (update_candidate_stage c s d (some false)).cognitive_passed } ∧
    (s = "screening" → (update_candidate_stage c s d none).screening_passed = none) ∧
    (s = "resume" → (update_candidate_stage c s d none).resume_passed = none) ∧
    (s = "cognitive" → (update_candidate_stage c s d none).cognitive_passed = none) := by
  fin_cases h <;> simp [update_candidate_stage]

/-- Witness for `omitted_passed_rejects` at stage `"screening"`. -/
theorem omitted_passed_rejects_witness :
    "screening" ∈ ["screening", "resume", "cognitive", "personality", "sales"] ∧
    ((update_candidate_stage (create_candidate 3 1 none none) "screening" []
        none).status = "rejected" ∧
      (update_candidate_stage (create_candidate 3 1 none none) "screening" []
        none).rejection_stage = some "screening" ∧
      update_candidate_stage (create_candidate 3 1 none none) "screening" [] (some false) =
        { update_candidate_stage (create_candidate 3 1 none none) "screening" [] none with
            screening_passed := (update_candidate_stage (create_candidate 3 1 none none)
              "screening" [] (some false)).screening_passed
            resume_passed := (update_candidate_stage (create_candidate 3 1 none none)
              "screening" [] (some false)).resume_passed
            cognitive_passed := (update_candidate_stage (create_candidate 3 1 none none)
              "screening" [] (some false)).cognitive_passed } ∧
      ("screening" = "screening" →
        (update_candidate_stage (create_candidate 3 1 none none) "screening" []
          none).screening_passed = none) ∧
      ("screening" = "resume" →
        (update_candidate_stage (create_candidate 3 1 none none) "screening" []
          none).resume_passed = none) ∧
      ("screening" = "cognitive" →
        (update_candidate_stage (create_candidate 3 1 none none) "screening" []
          none).cognitive_passed = none)) :=
  ⟨by decide,
    omitted_passed_rejects (create_candidate 3 1 none none) "screening" [] (by decide)⟩

/-- C5: the cognitive-test result's `score` is the count of submitted
answers whose value exactly matches the answer key for their question id
(missing or unmatched question ids never match), `total` is the number of
quiz questions, and `passed` holds exactly when `score ≥ total - 1`. -/
theorem cognitive_grading_correct (sub : CognitiveTestSubmission) :
    (submit_cognitive_test sub).score =
      sub.answers.countP
        (fun a => correct_answers_map a.question_id == some a.answer) ∧
    (submit_cognitive_test sub).total = COGNITIVE_QUIZ_QUESTIONS.length ∧
    ((submit_cognitive_test sub).passed = true ↔
      (submit_cognitive_test sub).total - 1 ≤ (submit_cognitive_test sub).score) := by
  refine ⟨?_, rfl, ?_⟩
  · simpa [submit_cognitive_test] using
      foldl_score_eq_countP
        (fun a => correct_answers_map a.question_id == some a.answer) sub.answers 0
  · simp [submit_cognitive_test]

/-- Counterexample to C6: the grader counts raw answer entries, so a
submission repeating the correct answer to `logic_1` four times is scored
`4` out of `total = 3` — the claimed bound `score ≤ total` fails. -/
theorem cognitive_score_exceeds_total :
    (submit_cognitive_test
      { answers := List.replicate 4 { question_id := "logic_1", answer := "Ложь" } }).score = 4 ∧
    (submit_cognitive_test
      { answers := List.replicate 4 { question_id := "logic_1", answer := "Ложь" } }).total = 3 ∧
    ¬((submit_cognitive_test
        { answers := List.replicate 4 { question_id := "logic_1", answer := "Ложь" } }).score ≤
      (submit_cognitive_test
        { answers := List.replicate 4 { question_id := "logic_1", answer := "Ложь" } }).total) := by
  decide

/-- The score computed by `submit_cognitive_test`, as a `countP`. -/
theorem submit_cognitive_test_score (sub : CognitiveTestSubmission) :
    (submit_cognitive_test sub).score =
      sub.answers.countP
        (fun a => correct_answers_map a.question_id == some a.answer) := by
  simpa [submit_cognitive_test] using
    foldl_score_eq_countP
      (fun a => correct_answers_map a.question_id == some a.answer) sub.answers 0

/-- Any question id with an entry in the answer-key map is one of the three
quiz question ids. -/
theorem correct_answers_map_key_mem (k v : String)
    (h : correct_answers_map k = some v) :
    k ∈ ["logic_1", "math_1", "attention_1"] := by
  by_contra hk
  simp only [List.mem_cons, List.mem_singleton, not_or] at hk
  obtain ⟨h1, h2, h3, -⟩ := hk
  have e1 : (("logic_1" : String) == k) = false := beq_eq_false_iff_ne.mpr (Ne.symm h1)
  have e2 : (("math_1" : String) == k) = false := beq_eq_false_iff_ne.mpr (Ne.symm h2)
  have e3 : (("attention_1" : String) == k) = false := beq_eq_false_iff_ne.mpr (Ne.symm h3)
  simp [correct_answers_map, COGNITIVE_QUIZ_QUESTIONS, List.find?, e1, e2, e3] at h

/-- C6 (amended): cognitive grading is order-independent over the answer
list, ignores answers with unknown question ids, and satisfies
`passed ↔ score ≥ total − 1`; the score is bounded by the number of
submitted answers and is bounded by `total` whenever the submitted question
ids are pairwise distinct (duplicate question ids can push the raw count
above `total`, see the counterexample). -/
theorem cognitive_grading_props (sub sub' : CognitiveTestSubmission)
    (hperm : sub.answers.Perm sub'.answers) :
    submit_cognitive_test sub = submit_cognitive_test sub' ∧
    (submit_cognitive_test sub).score ≤ sub.answers.length ∧
    ((sub.answers.map (fun a => a.question_id)).Nodup →
      (submit_cognitive_test sub).score ≤ (submit_cognitive_test sub).total) ∧
    submit_cognitive_test
      { answers := sub.answers.filter
          (fun a => (correct_answers_map a.question_id).isSome) } =
      submit_cognitive_test sub ∧
    ((submit_cognitive_test sub).passed = true ↔
      (submit_cognitive_test sub).total - 1 ≤ (submit_cognitive_test sub).score) := by
  have hres : ∀ s1 s2 : CognitiveTestSubmission,
      (submit_cognitive_test s1).score = (submit_cognitive_test s2).score →
      submit_cognitive_test s1 = submit_cognitive_test s2 := by
    intro s1 s2 h
    simp only [submit_cognitive_test] at h ⊢
    rw [h]
  refine ⟨?_, ?_, ?_, ?_, ?_⟩
  · apply hres
    rw [submit_cognitive_test_score, submit_cognitive_test_score]
    exact hperm.countP_eq _
  · rw [submit_cognitive_test_score]
    exact List.countP_le_length _
  · intro hnd
    rw [submit_cognitive_test_score]
    have htotal : (submit_cognitive_test sub).total = 3 := rfl
    rw [htotal, List.countP_eq_length_filter]
    have hsubl : List.Sublist
        ((sub.answers.filter
            (fun a => correct_answers_map a.question_id == some a.answer)).map
          (fun a => a.question_id))
        (sub.answers.map (fun a => a.question_id)) :=
      (List.filter_sublist _).map _
    have hnd' :
        ((sub.answers.filter
            (fun a => correct_answers_map a.question_id == some a.answer)).map
          (fun a => a.question_id)).Nodup :=
      List.Nodup.sublist hsubl hnd
    have hsub :
        ((sub.answers.filter
            (fun a => correct_answers_map a.question_id == some a.answer)).map
          (fun a => a.question_id)) ⊆ ["logic_1", "math_1", "attention_1"] := by
      intro x hx
      simp only [List.mem_map] at hx
      obtain ⟨a, ha, rfl⟩ := hx
      have hPa := (List.mem_filter.mp ha).2
      have hkey : correct_answers_map a.question_id = some a.answer := by
        simpa using hPa
      exact correct_answers_map_key_mem _ _ hkey
    have hlen := (List.subperm_of_subset hnd' hsub).length_le
    simpa using hlen
  · apply hres
    rw [submit_cognitive_test_score, submit_cognitive_test_score]
    rw [List.countP_filter]
    apply List.countP_congr
    intro a _
    by_cases hPa : (correct_answers_map a.question_id == some a.answer) = true
    · have hsome : (correct_answers_map a.question_id).isSome = true := by
        have := eq_of_beq hPa
        simp [this]
      simp [hPa, hsome]
    · simp [hPa]
  · simp [submit_cognitive_test]

/-- Witness for `cognitive_grading_props` on a two-answer submission (one
correct, one with an unknown question id) and its transposition. -/
theorem cognitive_grading_props_witness :
    (({ answers := [{ question_id := "logic_1", answer := "Ложь" },
        { question_id := "zzz", answer := "1" }] } : CognitiveTestSubmission).answers.Perm
      ({ answers := [{ question_id := "zzz", answer := "1" },
        { question_id := "logic_1", answer := "Ложь" }] } : CognitiveTestSubmission).answers) ∧
    submit_cognitive_test
      { answers := [{ question_id := "logic_1", answer := "Ложь" },
        { question_id := "zzz", answer := "1" }] } =
      submit_cognitive_test
        { answers := [{ question_id := "zzz", answer := "1" },
          { question_id := "logic_1", answer := "Ложь" }] } ∧
    (submit_cognitive_test
      { answers := [{ question_id := "logic_1", answer := "Ложь" },
        { question_id := "zzz", answer := "1" }] }).score ≤
      ({ answers := [{ question_id := "logic_1", answer := "Ложь" },
        { question_id := "zzz", answer := "1" }] } : CognitiveTestSubmission).answers.length ∧
    (({ answers := [{ question_id := "logic_1", answer := "Ложь" },
        { question_id := "zzz", answer := "1" }] } : CognitiveTestSubmission).answers.map
      (fun a => a.question_id)).Nodup ∧
    (submit_cognitive_test
      { answers := [{ question_id := "logic_1", answer := "Ложь" },
        { question_id := "zzz", answer := "1" }] }).score ≤
      (submit_cognitive_test
        { answers := [{ question_id := "logic_1", answer := "Ложь" },
          { question_id := "zzz", answer := "1" }] }).total ∧
    submit_cognitive_test
      { answers := ({ answers := [{ question_id := "logic_1", answer := "Ложь" },
          { question_id := "zzz", answer := "1" }] } : CognitiveTestSubmission).answers.filter
          (fun a => (correct_answers_map a.question_id).isSome) } =
      submit_cognitive_test
        { answers := [{ question_id := "logic_1", answer := "Ложь" },
          { question_id := "zzz", answer := "1" }] } ∧
    ((submit_cognitive_test
        { answers := [{ question_id := "logic_1", answer := "Ложь" },
          { question_id := "zzz", answer := "1" }] }).passed = true ↔
      (submit_cognitive_test
        { answers := [{ question_id := "logic_1", answer := "Ложь" },
          { question_id := "zzz", answer := "1" }] }).total - 1 ≤
        (submit_cognitive_test
          { answers := [{ question_id := "logic_1", answer := "Ложь" },
            { question_id := "zzz", answer := "1" }] }).score) :=
  have h := cognitive_grading_props
    { answers := [{ question_id := "logic_1", answer := "Ложь" },
      { question_id := "zzz", answer := "1" }] }
    { answers := [{ question_id := "zzz", answer := "1" },
      { question_id := "logic_1", answer := "Ложь" }] }
    (by decide)
  ⟨by decide, h.1, h.2.1, by decide, h.2.2.1 (by decide), h.2.2.2.1, h.2.2.2.2⟩

/-- Counterexample to C7: with persistence answers 2 and 3 (average 2.5,
normalized raw value 37.5), the endpoint returns `int(37.5) = 37`
(truncation), while the claimed `round((average − 1) / 4 × 100)` is `38`. -/
theorem personality_score_truncates_not_rounds :
    stage7_profile
      [{ question_id := "pers_1", value := 2 }, { question_id := "pers_2", value := 3 }]
      "persistence" = 37 ∧
    round (((((2 : ℚ) + 3) / 2) - 1) / 4 * 100) = 38 ∧ (37 : ℤ) ≠ 38 := by
  refine ⟨?_, ?_, by decide⟩
  · have hs : scale_scores
        [{ question_id := "pers_1", value := 2 }, { question_id := "pers_2", value := 3 }]
        "persistence" = [2, 3] := by decide
    unfold stage7_profile
    rw [hs]
    rw [if_pos (by decide : ([2, 3] : List ℤ) ≠ [])]
    have hq : ((((([2, 3] : List ℤ).sum : ℚ)) / ((([2, 3] : List ℤ).length : ℚ)) - 1) / 4 * 100)
        = 75 / 2 := by
      norm_num
    rw [hq, pyTrunc, if_pos (by norm_num : (0 : ℚ) ≤ 75 / 2)]
    rw [Int.floor_eq_iff]
    norm_num
  · rw [round_eq]
    norm_num [Int.floor_eq_iff]

/-- `int()` agrees with the floor on non-negative rationals. -/
theorem pyTrunc_eq_floor (q : ℚ) (h : 0 ≤ q) : pyTrunc q = ⌊q⌋ := by
  rw [pyTrunc, if_pos h]

/-- C7 (amended): for every scale of the questionnaire, with submitted
values in the questionnaire's 1–5 domain and at most two answers mapped to
the scale (the questionnaire has two questions per scale, and with at most
two collected values Python's double-precision arithmetic is exact, so the
rational arithmetic used here coincides with the source), the per-scale
score is the TRUNCATION `⌊(average − 1) / 4 × 100⌋` of the normalized
average — not its rounding — and defaults to `50` when no submitted answer
maps to the scale. -/
theorem personality_scale_normalization (answers : List PersonalityAnswer) (scale : String)
    (_hscale : scale ∈ PERSONALITY_SCALES)
    (hvals : ∀ a ∈ answers, 1 ≤ a.value ∧ a.value ≤ 5)
    (_hcount : (answers.filter
      (fun a => personality_question_map a.question_id == some scale)).length ≤ 2) :
    stage7_profile answers scale =
      if (answers.filter
          (fun a => personality_question_map a.question_id == some scale)) = [] then
        50
      else
        ⌊((((((answers.filter
              (fun a => personality_question_map a.question_id == some scale)).map
              (fun a => a.value)).sum : ℤ) : ℚ) /
            (((answers.filter
              (fun a => personality_question_map a.question_id == some scale)).length : ℚ))
            - 1) / 4 * 100)⌋ := by
  have hss := scale_scores_eq_filter answers scale
  unfold stage7_profile
  rw [hss]
  by_cases hl : (answers.filter
      (fun a => personality_question_map a.question_id == some scale)) = []
  · simp [hl]
  · have hmapne : ((answers.filter
        (fun a => personality_question_map a.question_id == some scale)).map
        (fun a => a.value)) ≠ [] := by
      simpa using hl
    rw [if_pos hmapne, if_neg hl, List.length_map]
    have hone : ∀ v ∈ ((answers.filter
        (fun a => personality_question_map a.question_id == some scale)).map
        (fun a => a.value)), 1 ≤ v := by
      intro v hv
      simp only [List.mem_map] at hv
      obtain ⟨a, ha, rfl⟩ := hv
      exact (hvals a (List.mem_filter.mp ha).1).1
    have hsum := length_le_sum_of_one_le _ hone
    rw [List.length_map] at hsum
    have hlenpos : 0 < (answers.filter
        (fun a => personality_question_map a.question_id == some scale)).length :=
      List.length_pos.mpr hl
    have hnpos : (0 : ℚ) < ((answers.filter
        (fun a => personality_question_map a.question_id == some scale)).length : ℚ) := by
      exact_mod_cast hlenpos
    have havg : (1 : ℚ) ≤
        ((((((answers.filter
            (fun a => personality_question_map a.question_id == some scale)).map
            (fun a => a.value)).sum : ℤ) : ℚ)) /
          (((answers.filter
            (fun a => personality_question_map a.question_id == some scale)).length : ℚ))) := by
      rw [one_le_div hnpos]
      exact_mod_cast hsum
    have hq0 : (0 : ℚ) ≤
        (((((((answers.filter
            (fun a => personality_question_map a.question_id == some scale)).map
            (fun a => a.value)).sum : ℤ) : ℚ)) /
          (((answers.filter
            (fun a => personality_question_map a.question_id == some scale)).length : ℚ))
          - 1) / 4 * 100) := by
      have h1 : (0 : ℚ) ≤
          (((((((answers.filter
              (fun a => personality_question_map a.question_id == some scale)).map
              (fun a => a.value)).sum : ℤ) : ℚ)) /
            (((answers.filter
              (fun a => personality_question_map a.question_id == some scale)).length : ℚ))
            - 1)) := by linarith
      positivity
    rw [pyTrunc_eq_floor _ hq0]

/-- Witness for `personality_scale_normalization`: a single persistence
answer of value 5 normalizes to the truncated score
`⌊(5 − 1) / 4 × 100⌋`. -/
theorem personality_scale_normalization_witness :
    stage7_profile [{ question_id := "pers_1", value := 5 }] "persistence" =
      (let l := ([{ question_id := "pers_1", value := 5 }] : List PersonalityAnswer).filter
        (fun a => personality_question_map a.question_id == some "persistence")
      if l = [] then 50
      else ⌊((((l.map (fun a => a.value)).sum : ℤ) : ℚ) / ((l.length : ℚ)) - 1) / 4 * 100⌋) :=
  personality_scale_normalization
    [{ question_id := "pers_1", value := 5 }] "persistence"
    (by decide) (by decide) (by decide)

/-- C8: with `cold_calls = true` and `work_format = "office"` submitted, a
salary expectation exactly at the maximum (60000) passes screening
(inclusive upper bound), and every salary expectation strictly above the
maximum fails with a reason string containing both the submitted value and
the maximum value verbatim. -/
theorem screening_salary_boundary_and_reason (r : List ScreeningAnswer)
    (hcc : candidate_answers r "cold_calls" = some (AnswerVal.b true))
    (hwf : candidate_answers r "work_format" = some (AnswerVal.s "office")) :
    (candidate_answers r "salary_expectation" = some (AnswerVal.i 60000) →
      (stage2_screening r).passed = true) ∧
    (∀ v : ℤ, screening_max_allowed < v →
      candidate_answers r "salary_expectation" = some (AnswerVal.i v) →
      (stage2_screening r).passed = false ∧
      (∃ u w, (stage2_screening r).details.data = u ++ (toString v).data ++ w) ∧
      (∃ u w, (stage2_screening r).details.data = u ++ "60000".data ++ w)) := by
  constructor
  · intro hse
    simp [stage2_screening, hcc, hwf, hse, pyEqOpt, pyEq, AnswerVal.toZ,
      screening_expected_cold_calls, screening_expected_work_format,
      pyIsIntInst, pyToInt, screening_max_allowed]
  · intro v hv hse
    have hres : stage2_screening r =
        { passed := false
          details := "Candidate's salary expectation (" ++ toString v
            ++ ") exceeds the maximum allowed ("
            ++ toString screening_max_allowed ++ ")." } := by
      simp [stage2_screening, hcc, hwf, hse, pyEqOpt, pyEq, AnswerVal.toZ,
        screening_expected_cold_calls, screening_expected_work_format,
        pyIsIntInst, pyToInt, pyShowOpt, hv]
    refine ⟨by rw [hres], ?_, ?_⟩
    · refine ⟨"Candidate's salary expectation (".data,
        (") exceeds the maximum allowed (" ++ toString screening_max_allowed ++ ").").data, ?_⟩
      rw [hres]
      simp [String.data_append]
    · have hmax : toString screening_max_allowed = "60000" := by decide
      refine ⟨("Candidate's salary expectation (" ++ toString v
          ++ ") exceeds the maximum allowed (").data, ").".data, ?_⟩
      rw [hres, ← hmax]
      simp [String.data_append]

/-- Witness for `screening_salary_boundary_and_reason`: salary 60000 passes
at the boundary; salary 80000 fails and the reason names both 80000 and
60000. -/
theorem screening_salary_boundary_and_reason_witness :
    (stage2_screening
      [{ question_id := "cold_calls", answer := AnswerVal.b true },
       { question_id := "work_format", answer := AnswerVal.s "office" },
       { question_id := "salary_expectation", answer := AnswerVal.i 60000 }]).passed = true ∧
    (stage2_screening
      [{ question_id := "cold_calls", answer := AnswerVal.b true },
       { question_id := "work_format", answer := AnswerVal.s "office" },
       { question_id := "salary_expectation", answer := AnswerVal.i 80000 }]).passed = false ∧
    (stage2_screening
      [{ question_id := "cold_calls", answer := AnswerVal.b true },
       { question_id := "work_format", answer := AnswerVal.s "office" },
       { question_id := "salary_expectation", answer := AnswerVal.i 80000 }]).details =
      "Candidate's salary expectation (80000) exceeds the maximum allowed (60000)." :=
  have h60 := screening_salary_boundary_and_reason
    [{ question_id := "cold_calls", answer := AnswerVal.b true },
     { question_id := "work_format", answer := AnswerVal.s "office" },
     { question_id := "salary_expectation", answer := AnswerVal.i 60000 }]
    (by decide) (by decide)
  have h80 := screening_salary_boundary_and_reason
    [{ question_id := "cold_calls", answer := AnswerVal.b true },
     { question_id := "work_format", answer := AnswerVal.s "office" },
     { question_id := "salary_expectation", answer := AnswerVal.i 80000 }]
    (by decide) (by decide)
  ⟨h60.1 (by decide), (h80.2 80000 (by decide) (by decide)).1, by decide⟩
